import Mathlib

/-!
Shallow embedding of `korchasa/jira-issues-exporter` (`main.go`) and proofs
about the claims of its specification.

The program fetches Jira issues with their changelogs, aggregates the time
each issue spent in each workflow status, and publishes Prometheus gauges.
The embedding below translates the data model (`JiraIssue` and its changelog),
the timestamp parser (`mustTimeParse` with layout
`2006-01-02T15:04:05.000-0700`), the duration aggregation and publishing of
`transformDataForPrometheus`, the refresh cycle `updateMetrics`, the
pagination loop `fetchJiraData`, and the `/metrics` HTTP handler of `main`.

Conventions of the embedding:
* Timestamps are nanoseconds since the Unix epoch, as `Int` (Go `time.Time`
  / `time.Duration` hold int64 nanoseconds).
* Go `log.Fatal` / `log.Fatalf` terminate the process. A failed interface
  type assertion panics instead; when the panic unwinds out of the
  `/metrics` handler it is recovered by the `net/http` server, so that
  scrape fails but the process keeps serving. Both paths are modelled by
  explicit failure values (`AggFatal`, `ProcessOutcome`) rather than by a
  returned error a caller could handle.
* Go maps are modelled as association lists. `m[k] += v` keeps the position
  of an existing key and appends a fresh key. Go's map iteration order is
  unspecified; the model iterates the association list in insertion order,
  which is one of the admissible orders of the original program.
-/

/-- A decoded JSON scalar, standing for the Go `interface{}` that
`json.Unmarshal` places in `Items[i].FromString`. Only the distinction
"string vs. not a string" is ever used by the program (the type assertion
`item.FromString.(string)`); non-scalar JSON values behave like the
non-string constructors here. -/
inductive JsonValue where
  | str : String → JsonValue
  | num : Int → JsonValue
  | jbool : Bool → JsonValue
  | null : JsonValue
deriving DecidableEq, Repr

/-- Whether a JSON value is a string — the test the Go type assertion
`item.FromString.(string)` performs before panicking. -/
def JsonValue.isStr : JsonValue → Bool
  | .str _ => true
  | _ => false

/-- One element of `Changelog.Histories[i].Items` in `main.go`: a field name
and the `fromString` value. -/
structure ChangeItem where
  field : String
  fromString : JsonValue
deriving DecidableEq, Repr

/-- One element of `Changelog.Histories` in `main.go`: a creation timestamp
string and the list of changed items. -/
structure ChangelogEntry where
  created : String
  items : List ChangeItem
deriving DecidableEq, Repr

/-- The `JiraIssue` struct of `main.go`, flattened: `histories` is
`Changelog.Histories` (delivered newest-first by the Jira API), `createdF`
is `Fields.Created`, and the remaining fields are the label sources used by
the metrics. -/
structure JiraIssue where
  key : String
  histories : List ChangelogEntry
  createdF : String
  priority : String
  assignee : String
  statusName : String
  statusCategoryName : String
  issueType : String
  projectKey : String
deriving DecidableEq, Repr

/-- Leap-year test of the proleptic Gregorian calendar (as in Go's
`time` package). -/
def isLeap (y : Int) : Bool :=
  y % 4 = 0 && (y % 100 ≠ 0 || y % 400 = 0)

/-- Number of days of month `m` (1–12) in year `y`. -/
def daysInMonth (y : Int) (m : Nat) : Nat :=
  if m = 2 then (if isLeap y then 29 else 28)
  else if m = 4 || m = 6 || m = 9 || m = 11 then 30
  else 31

/-- Days from the civil date `y-m-d` to 1970-01-01 (negative before the
epoch); the standard era-based civil-calendar computation used to model
Go's `time.Date`. -/
def daysFromCivil (y : Int) (m d : Nat) : Int :=
  let y' : Int := if m ≤ 2 then y - 1 else y
  let era : Int := (if 0 ≤ y' then y' else y' - 399) / 400
  let yoe : Int := y' - era * 400
  let mp : Int := ((m : Int) + 9) % 12
  let doy : Int := (153 * mp + 2) / 5 + (d : Int) - 1
  let doe : Int := yoe * 365 + yoe / 4 - yoe / 100 + doy
  era * 146097 + doe - 719468

/-- Value of an ASCII digit, `none` on any other character. -/
def digitVal (c : Char) : Option Nat :=
  if '0' ≤ c ∧ c ≤ '9' then some (c.toNat - '0'.toNat) else none

/-- Decimal digit at position `i` of a character list, `none` when out of
range or not a digit. -/
def digitAt (cs : List Char) (i : Nat) : Option Nat :=
  match cs.get? i with
  | none => none
  | some c => digitVal c

/-- Two-digit decimal number starting at position `i`. -/
def num2At (cs : List Char) (i : Nat) : Option Nat :=
  match digitAt cs i, digitAt cs (i + 1) with
  | some a, some b => some (10 * a + b)
  | _, _ => none

/-- Model of `mustTimeParse` in `main.go`: Go `time.Parse` with the fixed
layout `2006-01-02T15:04:05.000-0700` (`jiraTimeFormat`), returning
nanoseconds since the Unix epoch. `none` models the `log.Fatal(err)` branch,
which terminates the process. -/
def mustTimeParse (s : String) : Option Int :=
  let cs := s.data
  if cs.length = 28 ∧ cs.get? 4 = some '-' ∧ cs.get? 7 = some '-' ∧
      cs.get? 10 = some 'T' ∧ cs.get? 13 = some ':' ∧ cs.get? 16 = some ':' ∧
      cs.get? 19 = some '.' then
    match num2At cs 0, num2At cs 2, num2At cs 5, num2At cs 8 with
    | some ya, some yb, some month, some day =>
      match num2At cs 11, num2At cs 14, num2At cs 17 with
      | some hour, some minute, some second =>
        match digitAt cs 20, digitAt cs 21, digitAt cs 22 with
        | some fa, some fb, some fc =>
          match cs.get? 23, num2At cs 24, num2At cs 26 with
          | some sign, some zh, some zm =>
            let year : Int := (100 * ya + yb : Nat)
            let millis : Nat := 100 * fa + 10 * fb + fc
            if 1 ≤ month ∧ month ≤ 12 ∧ 1 ≤ day ∧ day ≤ daysInMonth year month ∧
                hour ≤ 23 ∧ minute ≤ 59 ∧ second ≤ 59 ∧ zh ≤ 23 ∧ zm ≤ 59 then
              let tzSeconds : Int := (zh * 3600 + zm * 60 : Nat)
              let tzOpt : Option Int :=
                if sign = '+' then some tzSeconds
                else if sign = '-' then some (-tzSeconds)
                else none
              match tzOpt with
              | none => none
              | some tz =>
                let days : Int := daysFromCivil year month day
                let localSeconds : Int :=
                  days * 86400 + (hour * 3600 + minute * 60 + second : Nat)
                some ((localSeconds - tz) * 1000000000 + (millis * 1000000 : Nat))
            else
              none
          | _, _, _ => none
        | _, _, _ => none
      | _, _, _ => none
    | _, _, _, _ => none
  else
    none

/-- Go `m[k] += v` on a `map[string]time.Duration`, as an association list:
add to an existing key in place, append a fresh key. -/
def mapAdd : List (String × Int) → String → Int → List (String × Int)
  | [], k, v => [(k, v)]
  | (k', v') :: rest, k, v =>
      if k' = k then (k', v' + v) :: rest else (k', v') :: mapAdd rest k v

/-- Go map lookup `m[k]` returning `none` when the key is absent. -/
def mapLookup : List (String × Int) → String → Option Int
  | [], _ => none
  | (k', v') :: rest, k => if k' = k then some v' else mapLookup rest k

/-- Lookup in the status catalog (`statusMap`, `map[string]string`):
status name to status category name. -/
def smLookup : List (String × String) → String → Option String
  | [], _ => none
  | (k', v') :: rest, k => if k' = k then some v' else smLookup rest k

/-- Fatal events that abort the aggregation loop of
`transformDataForPrometheus` before it can return: `log.Fatal` inside
`mustTimeParse` on an unparsable timestamp (a process exit), or the panic
of the interface type assertion `item.FromString.(string)` on a non-string
value (recovered later, at the `net/http` handler boundary). -/
inductive AggFatal where
  | timestampParse : String → AggFatal
  | typeAssertFailed : AggFatal
deriving DecidableEq, Repr

/-- Inner loop of `transformDataForPrometheus` over `history.Items`:
for each item with `Field == "status"`, add `changeTime - statusChangeTime`
to the previous status (`item.FromString.(string)`) and advance
`statusChangeTime` to `changeTime`. Returns the advanced cursor and the
updated duration map. -/
def itemsLoop (changeTime : Int) :
    Int → List (String × Int) → List ChangeItem →
    Except AggFatal (Int × List (String × Int))
  | cursor, acc, [] => .ok (cursor, acc)
  | cursor, acc, it :: rest =>
      if it.field = "status" then
        match it.fromString with
        | .str s => itemsLoop changeTime changeTime (mapAdd acc s (changeTime - cursor)) rest
        | _ => .error .typeAssertFailed
      else
        itemsLoop changeTime cursor acc rest

/-- Outer loop of `transformDataForPrometheus` over the (already reversed)
`issue.Changelog.Histories`: parse each entry's timestamp, then run the item
loop. -/
def durLoop :
    Int → List (String × Int) → List ChangelogEntry →
    Except AggFatal (List (String × Int))
  | _, acc, [] => .ok acc
  | cursor, acc, h :: rest =>
      match mustTimeParse h.created with
      | none => .error (.timestampParse h.created)
      | some changeTime =>
          match itemsLoop changeTime cursor acc h.items with
          | .error e => .error e
          | .ok (cursor', acc') => durLoop cursor' acc' rest

/-- The `statusDurations` map computed by `transformDataForPrometheus`
(lines 280–292 of `main.go`): reverse `Histories` into chronological order,
start the cursor at `Fields.Created`, and accumulate per-status durations in
nanoseconds. -/
def statusDurationsOf (issue : JiraIssue) : Except AggFatal (List (String × Int)) :=
  match mustTimeParse issue.createdF with
  | none => .error (.timestampParse issue.createdF)
  | some t0 => durLoop t0 [] issue.histories.reverse

/-- The label set of both Prometheus gauge vectors in `main.go`
(`project, priority, status, statusCategory, assignee, issueType`). -/
structure Labels where
  project : String
  priority : String
  status : String
  statusCategory : String
  assignee : String
  issueType : String
deriving DecidableEq, Repr

/-- A Prometheus `GaugeVec` as an association list from label sets to
values: `With(...).Inc()` / `.Add(v)` create the series on first use and
add to it afterwards; `Reset()` is the empty list. -/
def gaugeAdd : List (Labels × ℚ) → Labels → ℚ → List (Labels × ℚ)
  | [], l, v => [(l, v)]
  | (l', v') :: rest, l, v =>
      if l' = l then (l', v' + v) :: rest else (l', v') :: gaugeAdd rest l v

/-- The two registered gauge vectors: `jiraIssueCount` and
`jiraIssueHoursInStatusCount`. -/
structure Metrics where
  issueCount : List (Labels × ℚ)
  hoursInStatus : List (Labels × ℚ)
deriving DecidableEq, Repr

/-- `time.Duration.Hours()`: nanoseconds divided by 3.6e12, as an exact
rational. -/
def durationHours (d : Int) : ℚ :=
  (d : ℚ) / 3600000000000

/-- Label set used by `jiraIssueCount.With(...)` for an issue: the issue's
current status and category. -/
def countLabels (issue : JiraIssue) : Labels :=
  ⟨issue.projectKey, issue.priority, issue.statusName,
    issue.statusCategoryName, issue.assignee, issue.issueType⟩

/-- Label set used by `jiraIssueHoursInStatusCount.With(...)` for one
(status, category) pair of an issue. -/
def durLabels (issue : JiraIssue) (status cat : String) : Labels :=
  ⟨issue.projectKey, issue.priority, status, cat, issue.assignee,
    issue.issueType⟩

/-- The publishing loop of `transformDataForPrometheus` (lines 293–306 of
`main.go`): walk the duration pairs in the given order, look each status up
in the catalog, and on success add the hours to the gauge; the first status
missing from the catalog stops the loop and is returned as the error, with
everything already added to the gauge kept. Go iterates the
`statusDurations` map in unspecified order; the order is the list order of
the argument. -/
def publishDurations (sm : List (String × String)) (issue : JiraIssue) :
    List (Labels × ℚ) → List (String × Int) →
    List (Labels × ℚ) × Option String
  | g, [] => (g, none)
  | g, (status, dur) :: rest =>
      match smLookup sm status with
      | none => (g, some status)
      | some cat =>
          publishDurations sm issue
            (gaugeAdd g (durLabels issue status cat) (durationHours dur)) rest

/-- How one `transformDataForPrometheus` call can fail: `fatal` means the
call never returns — a `log.Fatal` process exit on an unparsable timestamp,
or the type-assertion panic that unwinds up to the `net/http` server — and
`unknownStatus` is the error value returned to the caller for a status
missing from the catalog. -/
inductive TransformFailure where
  | fatal : AggFatal → TransformFailure
  | unknownStatus : String → TransformFailure
deriving DecidableEq, Repr

/-- Result of one `transformDataForPrometheus` call: the metric state, the
failure (if any), and the issue as the caller sees it afterwards — the Go
function receives the issue by value, but `slices.Reverse` reverses the
backing array shared with the caller, so the caller's changelog order is
reversed by the call. -/
structure TransformResult where
  metrics : Metrics
  failure : Option TransformFailure
  issue' : JiraIssue
deriving Repr

/-- Duration aggregation and publishing steps of
`transformDataForPrometheus`, after the count increment: the metric state
reached and the failure, if any. -/
def transformPublish (sm : List (String × String)) (issue : JiraIssue)
    (m1 : Metrics) : Metrics × Option TransformFailure :=
  match statusDurationsOf issue with
  | .error e => (m1, some (.fatal e))
  | .ok durs =>
      match publishDurations sm issue m1.hoursInStatus durs with
      | (g, some s) => ({ m1 with hoursInStatus := g }, some (.unknownStatus s))
      | (g, none) => ({ m1 with hoursInStatus := g }, none)

/-- `transformDataForPrometheus` (lines 270–308 of `main.go`): increment the
issue-count gauge, reverse the changelog in place, accumulate per-status
durations, and publish them as hours. The changelog reversal is performed
on the backing array shared with the caller, so the returned `issue'` holds
the reversed changelog whatever else happens. -/
def transformDataForPrometheus (sm : List (String × String)) (issue : JiraIssue)
    (m : Metrics) : TransformResult :=
  let m1 : Metrics := { m with issueCount := gaugeAdd m.issueCount (countLabels issue) 1 }
  let r := transformPublish sm issue m1
  ⟨r.1, r.2, { issue with histories := issue.histories.reverse }⟩

/-- Failure of one `updateMetrics` refresh cycle: the status-catalog fetch
failed, the issue fetch failed, or an issue transform failed. -/
inductive UpdateFailure where
  | statusMapFailed : UpdateFailure
  | fetchFailed : UpdateFailure
  | transform : TransformFailure → UpdateFailure
deriving DecidableEq, Repr

/-- The per-issue loop of `updateMetrics`: transform issues in order,
stopping at the first failure. -/
def publishAll (sm : List (String × String)) :
    Metrics → List JiraIssue → Metrics × Option TransformFailure
  | m, [] => (m, none)
  | m, issue :: rest =>
      let r := transformDataForPrometheus sm issue m
      match r.failure with
      | some f => (r.metrics, some f)
      | none => publishAll sm r.metrics rest

/-- `updateMetrics` (lines 103–129 of `main.go`). The outcomes of the two
network steps (`buildStatusMap`, `fetchJiraData`) are passed in as values;
on their failure the function returns early with the metric state untouched.
On success it resets both gauge vectors (`jiraIssueCount.Reset()`,
`jiraIssueHoursInStatusCount.Reset()`) and republishes every fetched issue.
Returns the metric state as left behind plus the failure, if any. -/
def updateMetrics (catalog : Except Unit (List (String × String)))
    (fetched : Except Unit (List JiraIssue)) (m : Metrics) :
    Metrics × Option UpdateFailure :=
  match catalog with
  | .error _ => (m, some .statusMapFailed)
  | .ok sm =>
      match fetched with
      | .error _ => (m, some .fetchFailed)
      | .ok issues =>
          match publishAll sm ⟨[], []⟩ issues with
          | (m', some f) => (m', some (.transform f))
          | (m', none) => (m', none)

/-- What happens to the process when the `/metrics` handler of `main` runs
one request: the process exits (`log.Fatalf` in the handler on an
`updateMetrics` error, or `log.Fatal` inside `mustTimeParse`); or a panic
thrown inside the handler is recovered by the `net/http` server, so the
scrape fails but the process keeps serving; or the scrape is served from
the updated metric state. -/
inductive ProcessOutcome where
  | fatalExit : ProcessOutcome
  | panicRecovered : ProcessOutcome
  | served : Metrics → ProcessOutcome
deriving Repr

/-- The `/metrics` handler registered in `main` (lines 89–95 of `main.go`):
`updateMetrics` is run. An error it returns (failed catalog fetch, failed
issue fetch, or a status missing from the catalog) hits the in-handler
`log.Fatalf`, and an unparsable changelog timestamp hits `log.Fatal`
inside `mustTimeParse`; both exit the process. The type-assertion panic on
a non-string `fromString` instead unwinds out of the handler and is
recovered by the `net/http` server: that scrape fails and the process
survives. -/
def metricsHandler (catalog : Except Unit (List (String × String)))
    (fetched : Except Unit (List JiraIssue)) (m : Metrics) : ProcessOutcome :=
  match updateMetrics catalog fetched m with
  | (_, some (.transform (.fatal .typeAssertFailed))) => .panicRecovered
  | (_, some _) => .fatalExit
  | (m', none) => .served m'

/-- The pagination loop of `fetchJiraData` (lines 155–170 of `main.go`),
with the Jira server modelled as a function from the `startAt` offset to
that page's outcome. `fuel` bounds the number of iterations the unbounded
Go `for` loop is unrolled; `none` means the loop was still running when the
fuel ran out. On a page error the Go function returns `nil, err` — the
error alone, no issues. -/
def fetchLoop (server : Nat → Except Unit (List JiraIssue)) :
    Nat → List JiraIssue → Nat → Option (Except Unit (List JiraIssue))
  | _, _, 0 => none
  | startAt, acc, fuel + 1 =>
      match server startAt with
      | .error e => some (.error e)
      | .ok chunk =>
          if chunk.length = 0 then some (.ok acc)
          else fetchLoop server (startAt + chunk.length) (acc ++ chunk) fuel

/-- `fetchJiraData`: start at offset 0 with an empty issue list. -/
def fetchJiraData (server : Nat → Except Unit (List JiraIssue)) (fuel : Nat) :
    Option (Except Unit (List JiraIssue)) :=
  fetchLoop server 0 [] fuel

/-- Timestamp string `2024-01-01T00:00:00.000+0000`; parses to Unix epoch
nanoseconds `1704067200000000000`. -/
def ts0 : String := "2024-01-01T00:00:00.000+0000"

/-- One hour after `ts0`. -/
def ts1 : String := "2024-01-01T01:00:00.000+0000"

/-- Three hours after `ts0`. -/
def ts2 : String := "2024-01-01T03:00:00.000+0000"

/-- Concrete issue created at `ts0` with two status changes, stored
newest-first as the Jira API delivers them: at `ts1` it left status `A`
(A→B) and at `ts2` it left status `B` (B→C). -/
def exIssue2 : JiraIssue :=
  ⟨"EX-1",
   [⟨ts2, [⟨"status", .str "B"⟩]⟩, ⟨ts1, [⟨"status", .str "A"⟩]⟩],
   ts0, "High", "dev@example.com", "Done", "DoneCat", "Task", "PRJ"⟩

/-- Catalog containing both statuses of `exIssue2`'s history. -/
def exSm : List (String × String) := [("A", "catA"), ("B", "catB")]

/-- Catalog missing status `B`, which `exIssue2`'s history references. -/
def c3Sm : List (String × String) := [("A", "catA")]

/-- Concrete issue with an empty changelog. -/
def exNoChanges : JiraIssue :=
  ⟨"EX-2", [], ts0, "Low", "qa@example.com", "Open", "ToDoCat", "Bug", "PRJ"⟩

/-- Concrete issue whose single changelog entry has an unparsable
timestamp. -/
def exBadTimestamp : JiraIssue :=
  ⟨"EX-3", [⟨"not-a-timestamp", [⟨"status", .str "A"⟩]⟩], ts0, "Low", "",
   "Open", "ToDoCat", "Bug", "PRJ"⟩

/-- Concrete issue whose single status change carries a non-string
`fromString` value. -/
def exBadFromString : JiraIssue :=
  ⟨"EX-4", [⟨ts1, [⟨"status", JsonValue.null⟩]⟩], ts0, "Low", "",
   "Open", "ToDoCat", "Bug", "PRJ"⟩

/-- Concrete issue whose single changelog entry at `ts1` carries three
status items at once (leaving `A`, then `B`, then `C`). -/
def c10Issue : JiraIssue :=
  ⟨"EX-5",
   [⟨ts1, [⟨"status", .str "A"⟩, ⟨"status", .str "B"⟩, ⟨"status", .str "C"⟩]⟩],
   ts0, "Low", "", "Open", "ToDoCat", "Bug", "PRJ"⟩

/-- Empty metric state: both gauge vectors hold no series. -/
def emptyMetrics : Metrics := ⟨[], []⟩

/-- Metric state left over from an earlier cycle, with one stale series in
each gauge vector. -/
def staleMetrics : Metrics :=
  ⟨[(⟨"OLD", "p", "s", "c", "a", "t"⟩, 5)], [(⟨"OLD", "p", "s", "c", "a", "t"⟩, 2)]⟩

/-- Server returning pages of sizes 100, 100 and then always the empty
page. -/
def c5Server (n : Nat) : Except Unit (List JiraIssue) :=
  if n = 0 then .ok (List.replicate 100 exNoChanges)
  else if n = 100 then .ok (List.replicate 100 exNoChanges)
  else .ok []

/-- Server returning a page of size 100 and then an error at every later
offset. -/
def c5ServerErr (n : Nat) : Except Unit (List JiraIssue) :=
  if n = 0 then .ok (List.replicate 100 exNoChanges)
  else .error ()

/-- Repeated `m[s] += 0` over a list of status names, as performed for
status items whose change time equals the cursor. -/
def zeroFold (acc : List (String × Int)) (bs : List String) : List (String × Int) :=
  bs.foldl (fun a s => mapAdd a s 0) acc

/-- Claim C9: the aggregator mutates its input. After a call of
`transformDataForPrometheus` on an issue, the caller's issue holds its
changelog entries in the exact reverse of the order they held before the
call (the in-place `slices.Reverse` acts on the backing array shared with
the caller and is not undone), while every other field of the issue is
unchanged. -/
theorem c9_transform_reverses_changelog_in_place (sm : List (String × String))
    (issue : JiraIssue) (m : Metrics) :
    (transformDataForPrometheus sm issue m).issue'.histories = issue.histories.reverse ∧
    (transformDataForPrometheus sm issue m).issue'.key = issue.key ∧
    (transformDataForPrometheus sm issue m).issue'.createdF = issue.createdF ∧
    (transformDataForPrometheus sm issue m).issue'.priority = issue.priority ∧
    (transformDataForPrometheus sm issue m).issue'.assignee = issue.assignee ∧
    (transformDataForPrometheus sm issue m).issue'.statusName = issue.statusName ∧
    (transformDataForPrometheus sm issue m).issue'.statusCategoryName = issue.statusCategoryName ∧
    (transformDataForPrometheus sm issue m).issue'.issueType = issue.issueType ∧
    (transformDataForPrometheus sm issue m).issue'.projectKey = issue.projectKey :=
  ⟨rfl, rfl, rfl, rfl, rfl, rfl, rfl, rfl, rfl⟩

/-- Claim C7: when a refresh cycle succeeds, the resulting metric state is
independent of the metric state the cycle started from — both gauge vectors
are cleared before any issue is published — and equals the state rebuilt
from empty out of that cycle's catalog and fetched issues alone. -/
theorem c7_reset_before_publish (catalog : Except Unit (List (String × String)))
    (fetched : Except Unit (List JiraIssue)) (m m' : Metrics)
    (h : (updateMetrics catalog fetched m).2 = none) :
    updateMetrics catalog fetched m = updateMetrics catalog fetched m' ∧
    ∃ sm issues, catalog = .ok sm ∧ fetched = .ok issues ∧
      (updateMetrics catalog fetched m).1 = (publishAll sm emptyMetrics issues).1 := by
  cases catalog with
  | error e => simp [updateMetrics] at h
  | ok sm =>
    cases fetched with
    | error e => simp [updateMetrics] at h
    | ok issues =>
      refine ⟨rfl, sm, issues, rfl, rfl, ?_⟩
      simp only [updateMetrics, emptyMetrics]
      rcases hp : publishAll sm (⟨[], []⟩ : Metrics) issues with ⟨m2, f⟩
      cases f <;> simp [hp]

/-- Witness for C7: a successful refresh starting from stale metric state
yields exactly the state a refresh starting from empty metric state
yields. -/
theorem c7_reset_before_publish_witness :
    (updateMetrics (.ok exSm) (.ok [exIssue2]) staleMetrics).2 = none ∧
    updateMetrics (.ok exSm) (.ok [exIssue2]) staleMetrics =
      updateMetrics (.ok exSm) (.ok [exIssue2]) emptyMetrics :=
  ⟨rfl, (c7_reset_before_publish (.ok exSm) (.ok [exIssue2]) staleMetrics emptyMetrics rfl).1⟩

/-- Claim C2 (evaluating the code at failing inputs): each of the four
error classes the claim names — a failed catalog fetch, a failed issue
fetch (covering fetch and decode errors), an unparsable changelog
timestamp, and a status missing from the catalog — terminates the process
when the `/metrics` handler runs, via `log.Fatalf` in the handler or
`log.Fatal` inside `mustTimeParse`. The claim states these errors only
abort the current refresh cycle and the process keeps serving; the code
exits instead. By contrast the type-assertion panic on a non-string
`fromString`, which is not one of the claim's error classes, is recovered
by the `net/http` server and does not exit the process. -/
theorem c2_refresh_errors_exit_process :
    metricsHandler (.error ()) (.ok [exIssue2]) emptyMetrics = .fatalExit ∧
    metricsHandler (.ok exSm) (.error ()) emptyMetrics = .fatalExit ∧
    metricsHandler (.ok exSm) (.ok [exBadTimestamp]) emptyMetrics = .fatalExit ∧
    metricsHandler (.ok []) (.ok [exIssue2]) emptyMetrics = .fatalExit ∧
    metricsHandler (.ok exSm) (.ok [exBadFromString]) emptyMetrics = .panicRecovered :=
  ⟨rfl, rfl, rfl, rfl, rfl⟩

/-- Unfolding of `fetchLoop` when fuel remains. -/
theorem fetchLoop_succ (server : Nat → Except Unit (List JiraIssue))
    (startAt : Nat) (acc : List JiraIssue) (fuel : Nat) :
    fetchLoop server startAt acc (fuel + 1) =
      (match server startAt with
       | .error e => some (.error e)
       | .ok chunk =>
           if chunk.length = 0 then some (.ok acc)
           else fetchLoop server (startAt + chunk.length) (acc ++ chunk) fuel) := rfl

/-- Claim C5: the pagination of `fetchJiraData` concatenates pages up to the
first empty page — pages of sizes 100, 100, 0 yield exactly 200 issues —
and a page error (here at offset 100) aborts the whole fetch with an error
and no issues. -/
theorem c5_pagination_concat_and_abort
    (server server2 : Nat → Except Unit (List JiraIssue))
    (p0 p1 q0 : List JiraIssue)
    (hl0 : p0.length = 100) (hl1 : p1.length = 100)
    (h0 : server 0 = .ok p0) (h1 : server 100 = .ok p1)
    (h2 : server 200 = .ok [])
    (hq : q0.length = 100)
    (e0 : server2 0 = .ok q0) (e1 : server2 100 = .error ()) :
    fetchJiraData server 3 = some (.ok (p0 ++ p1)) ∧
    (p0 ++ p1).length = 200 ∧
    fetchJiraData server2 2 = some (.error ()) := by
  refine ⟨?_, ?_, ?_⟩
  · rw [show fetchJiraData server 3 = fetchLoop server 0 [] (2 + 1) from rfl,
      fetchLoop_succ, h0]
    simp only [hl0, List.nil_append]
    rw [if_neg (by decide)]
    rw [show fetchLoop server (0 + 100) p0 2 = fetchLoop server 100 p0 (1 + 1) from rfl,
      fetchLoop_succ, h1]
    simp only [hl1]
    rw [if_neg (by decide)]
    rw [show fetchLoop server (100 + 100) (p0 ++ p1) 1 =
        fetchLoop server 200 (p0 ++ p1) (0 + 1) from rfl,
      fetchLoop_succ, h2]
    simp
  · simp [hl0, hl1]
  · rw [show fetchJiraData server2 2 = fetchLoop server2 0 [] (1 + 1) from rfl,
      fetchLoop_succ, e0]
    simp only [hq, List.nil_append]
    rw [if_neg (by decide)]
    rw [show fetchLoop server2 (0 + 100) q0 1 = fetchLoop server2 100 q0 (0 + 1) from rfl,
      fetchLoop_succ, e1]

/-- Witness for C5, at a concrete server whose pages have sizes 100, 100, 0
and a concrete server failing at offset 100. -/
theorem c5_pagination_witness :
    fetchJiraData c5Server 3 =
      some (.ok (List.replicate 100 exNoChanges ++ List.replicate 100 exNoChanges)) ∧
    (List.replicate 100 exNoChanges ++ List.replicate 100 exNoChanges : List JiraIssue).length = 200 ∧
    fetchJiraData c5ServerErr 2 = some (.error ()) :=
  c5_pagination_concat_and_abort c5Server c5ServerErr
    (List.replicate 100 exNoChanges) (List.replicate 100 exNoChanges)
    (List.replicate 100 exNoChanges)
    (by simp) (by simp) rfl rfl rfl (by simp) rfl rfl

/-- Claim C4 fails on the code: running the aggregation a second time on the
issue exactly as the first call left it (the in-place reversal is visible to
the caller) yields a different duration mapping on a concrete two-transition
issue. -/
theorem c4_counterexample_second_run_differs :
    statusDurationsOf (transformDataForPrometheus exSm exIssue2 emptyMetrics).issue' ≠
      statusDurationsOf exIssue2 := by
  intro h
  have h1 : statusDurationsOf (transformDataForPrometheus exSm exIssue2 emptyMetrics).issue' =
      .ok [("B", 10800000000000), ("A", -7200000000000)] := rfl
  have h2 : statusDurationsOf exIssue2 = .ok [("A", 3600000000000), ("B", 7200000000000)] := rfl
  rw [h1, h2] at h
  injection h with h3
  exact absurd h3 (by decide)

/-- Claim C4 amended: the aggregator is deterministic but not idempotent
under its in-place changelog reversal — a second call sees the reversed
changelog and in general computes a different mapping; the reversal is an
involution, so the second call restores the issue to its original form and
a third call computes the first call's mapping again. -/
theorem c4_amended_double_reversal_restores (sm sm2 : List (String × String))
    (issue : JiraIssue) (m m2 : Metrics) :
    (transformDataForPrometheus sm2 (transformDataForPrometheus sm issue m).issue' m2).issue' =
      issue ∧
    statusDurationsOf
        (transformDataForPrometheus sm2 (transformDataForPrometheus sm issue m).issue' m2).issue' =
      statusDurationsOf issue := by
  have h : (transformDataForPrometheus sm2 (transformDataForPrometheus sm issue m).issue' m2).issue' =
      issue := by
    show ({ { issue with histories := issue.histories.reverse } with
             histories := issue.histories.reverse.reverse } : JiraIssue) = issue
    cases issue
    simp
  exact ⟨h, by rw [h]⟩

/-- Claim C3 fails on the code: with catalog `{A ↦ catA}` and an issue whose
history visits `A` and then the uncatalogued `B`, publishing returns the
unknown-status error for `B`, yet the duration series for `A` has already
been published — publication is not atomic per issue. -/
theorem c3_counterexample_partial_publish :
    (transformDataForPrometheus c3Sm exIssue2 emptyMetrics).failure =
      some (.unknownStatus "B") ∧
    (transformDataForPrometheus c3Sm exIssue2 emptyMetrics).metrics.hoursInStatus.map Prod.fst =
      [durLabels exIssue2 "A" "catA"] :=
  ⟨rfl, rfl⟩

/-- Claim C3 amended: publishing an issue whose durations reference a status
missing from the catalog fails with an unknown-status error naming the first
missing status in iteration order, publishes nothing from that status
onward, and keeps everything published for the catalogued statuses iterated
before it. -/
theorem c3_amended_unknown_status_stops_publishing (sm : List (String × String))
    (issue : JiraIssue) (g : List (Labels × ℚ)) (pre post : List (String × Int))
    (status : String) (dur : Int)
    (hpre : ∀ p ∈ pre, (smLookup sm p.1).isSome)
    (hmiss : smLookup sm status = none) :
    publishDurations sm issue g (pre ++ (status, dur) :: post) =
      ((publishDurations sm issue g pre).1, some status) := by
  induction pre generalizing g with
  | nil => simp [publishDurations, hmiss]
  | cons p rest ih =>
    obtain ⟨k, v⟩ := p
    have hk := hpre (k, v) (by simp)
    obtain ⟨cat, hcat⟩ : ∃ c, smLookup sm k = some c := by
      cases hsk : smLookup sm k with
      | none => rw [hsk] at hk; simp at hk
      | some c => exact ⟨c, rfl⟩
    simp only [List.cons_append, publishDurations, hcat]
    exact ih _ (fun q hq => hpre q (by simp [hq]))

/-- Witness for the amended C3 at a concrete catalog, issue and duration
list: the catalogued status `A` before the missing `B` stays published. -/
theorem c3_amended_witness :
    publishDurations c3Sm exIssue2 [] [("A", 3600000000000), ("B", 7200000000000)] =
      ((publishDurations c3Sm exIssue2 [] [("A", 3600000000000)]).1, some "B") :=
  c3_amended_unknown_status_stops_publishing c3Sm exIssue2 []
    [("A", 3600000000000)] [] "B" 7200000000000 (by decide) rfl

/-- Claim C1: for an issue created at time `t0` whose changelog (stored
newest-first, as the Jira API delivers it) records exactly two status
changes — at `t1` leaving status `a` (A→B) and at `t2` leaving status `b`
(B→C) — the aggregated mapping assigns `a` the duration `t1 − t0`, `b` the
duration `t2 − t1`, and assigns the final status `c` nothing: the open
interval after the last recorded transition is not counted. -/
theorem c1_two_transition_durations (issue : JiraIssue) (s0 s1 s2 a b c : String)
    (t0 t1 t2 : Int)
    (hcr : issue.createdF = s0)
    (hh : issue.histories = [⟨s2, [⟨"status", .str b⟩]⟩, ⟨s1, [⟨"status", .str a⟩]⟩])
    (hp0 : mustTimeParse s0 = some t0) (hp1 : mustTimeParse s1 = some t1)
    (hp2 : mustTimeParse s2 = some t2)
    (hab : a ≠ b) (hca : c ≠ a) (hcb : c ≠ b) :
    statusDurationsOf issue = .ok [(a, t1 - t0), (b, t2 - t1)] ∧
    mapLookup [(a, t1 - t0), (b, t2 - t1)] a = some (t1 - t0) ∧
    mapLookup [(a, t1 - t0), (b, t2 - t1)] b = some (t2 - t1) ∧
    mapLookup [(a, t1 - t0), (b, t2 - t1)] c = none := by
  refine ⟨?_, ?_, ?_, ?_⟩
  · unfold statusDurationsOf
    rw [hcr, hp0, hh]
    simp only [List.reverse_cons, List.reverse_nil, List.nil_append, List.cons_append,
      List.singleton_append, durLoop, itemsLoop, mapAdd, hp1, hp2, hab]
    simp [mapAdd, hab]
  · simp [mapLookup]
  · simp [mapLookup, hab]
  · simp [mapLookup, Ne.symm hca, Ne.symm hcb]

/-- Witness for C1 at the concrete issue `exIssue2` (created at `ts0`,
A→B at `ts1`, B→C at `ts2`). -/
theorem c1_witness :
    statusDurationsOf exIssue2 = .ok [("A", 3600000000000), ("B", 7200000000000)] ∧
    mapLookup [("A", 3600000000000), ("B", 7200000000000)] "A" = some 3600000000000 ∧
    mapLookup [("A", 3600000000000), ("B", 7200000000000)] "B" = some 7200000000000 ∧
    mapLookup [("A", 3600000000000), ("B", 7200000000000)] "C" = none :=
  c1_two_transition_durations exIssue2 ts0 ts1 ts2 "A" "B" "C"
    1704067200000000000 1704070800000000000 1704078000000000000
    rfl rfl rfl rfl rfl (by decide) (by decide) (by decide)

/-- Running the item loop over items none of which changes the `status`
field leaves both the cursor and the duration map untouched. -/
theorem itemsLoop_no_status (t : Int) (items : List ChangeItem) :
    ∀ (c : Int) (acc : List (String × Int)),
    (∀ it ∈ items, it.field ≠ "status") →
    itemsLoop t c acc items = .ok (c, acc) := by
  induction items with
  | nil => intro c acc _; rfl
  | cons it rest ih =>
    intro c acc h
    have hf : it.field ≠ "status" := h it (by simp)
    simp only [itemsLoop, hf, if_false, reduceIte]
    exact ih c acc (fun x hx => h x (by simp [hx]))

/-- Running the entry loop over entries with parsable timestamps and no
status items leaves the duration map untouched. -/
theorem durLoop_no_status (entries : List ChangelogEntry) :
    ∀ (c : Int) (acc : List (String × Int)),
    (∀ e ∈ entries, (mustTimeParse e.created).isSome) →
    (∀ e ∈ entries, ∀ it ∈ e.items, it.field ≠ "status") →
    durLoop c acc entries = .ok acc := by
  induction entries with
  | nil => intro c acc _ _; rfl
  | cons e rest ih =>
    intro c acc hp hns
    obtain ⟨t, ht⟩ := Option.isSome_iff_exists.mp (hp e (by simp))
    simp only [durLoop, ht]
    rw [itemsLoop_no_status t e.items c acc (hns e (by simp))]
    exact ih c acc (fun x hx => hp x (by simp [hx])) (fun x hx => hns x (by simp [hx]))

/-- Claim C6: an issue with zero status-change changelog entries produces an
empty duration mapping, publishes nothing to the hours gauge, and still
increments the issue-count gauge for its label set exactly once. -/
theorem c6_no_status_changes (sm : List (String × String)) (issue : JiraIssue)
    (m : Metrics) (t0 : Int)
    (hcr : mustTimeParse issue.createdF = some t0)
    (hparse : ∀ e ∈ issue.histories, (mustTimeParse e.created).isSome)
    (hns : ∀ e ∈ issue.histories, ∀ it ∈ e.items, it.field ≠ "status") :
    statusDurationsOf issue = .ok [] ∧
    transformDataForPrometheus sm issue m =
      ⟨⟨gaugeAdd m.issueCount (countLabels issue) 1, m.hoursInStatus⟩, none,
        { issue with histories := issue.histories.reverse }⟩ := by
  have hsd : statusDurationsOf issue = .ok [] := by
    unfold statusDurationsOf
    rw [hcr]
    exact durLoop_no_status issue.histories.reverse t0 []
      (fun e he => hparse e (List.mem_reverse.mp he))
      (fun e he => hns e (List.mem_reverse.mp he))
  refine ⟨hsd, ?_⟩
  unfold transformDataForPrometheus transformPublish
  rw [hsd]
  rfl

/-- Witness for C6: the issue `exNoChanges`, whose changelog is empty,
starting from the stale metric state. -/
theorem c6_witness :
    statusDurationsOf exNoChanges = .ok [] ∧
    transformDataForPrometheus exSm exNoChanges staleMetrics =
      ⟨⟨gaugeAdd staleMetrics.issueCount (countLabels exNoChanges) 1,
        staleMetrics.hoursInStatus⟩, none,
        { exNoChanges with histories := exNoChanges.histories.reverse }⟩ :=
  c6_no_status_changes exSm exNoChanges staleMetrics 1704067200000000000 rfl
    (by intro e he; rw [show exNoChanges.histories = [] from rfl] at he; cases he)
    (by intro e he; rw [show exNoChanges.histories = [] from rfl] at he; cases he)

/-- The item loop hits the type-assertion panic whenever some item of the
entry changes the `status` field with a non-string `fromString`. -/
theorem itemsLoop_bad_item (t : Int) (items : List ChangeItem) :
    ∀ (c : Int) (acc : List (String × Int)),
    (∃ it ∈ items, it.field = "status" ∧ it.fromString.isStr = false) →
    itemsLoop t c acc items = .error .typeAssertFailed := by
  induction items with
  | nil => intro c acc h; simp at h
  | cons it rest ih =>
    intro c acc h
    by_cases hf : it.field = "status"
    · cases hfs : it.fromString with
      | str s =>
        obtain ⟨bad, hmem, hbf, hbs⟩ := h
        rcases List.mem_cons.mp hmem with heq | hmemr
        · subst heq; rw [hfs] at hbs; simp [JsonValue.isStr] at hbs
        · simp only [itemsLoop, hf, hfs, reduceIte]
          exact ih _ _ ⟨bad, hmemr, hbf, hbs⟩
      | num n => simp [itemsLoop, hf, hfs]
      | jbool b => simp [itemsLoop, hf, hfs]
      | null => simp [itemsLoop, hf, hfs]
    · obtain ⟨bad, hmem, hbf, hbs⟩ := h
      rcases List.mem_cons.mp hmem with heq | hmemr
      · subst heq; exact absurd hbf hf
      · simp only [itemsLoop, hf, reduceIte]
        exact ih _ _ ⟨bad, hmemr, hbf, hbs⟩

/-- The entry loop fails (with some fatal error) whenever some entry holds a
status item with a non-string `fromString`. -/
theorem durLoop_bad_item (entries : List ChangelogEntry) :
    ∀ (c : Int) (acc : List (String × Int)),
    (∃ e ∈ entries, ∃ it ∈ e.items, it.field = "status" ∧ it.fromString.isStr = false) →
    ∃ err, durLoop c acc entries = .error err := by
  induction entries with
  | nil => intro c acc h; simp at h
  | cons e rest ih =>
    intro c acc h
    cases ht : mustTimeParse e.created with
    | none => exact ⟨.timestampParse e.created, by simp [durLoop, ht]⟩
    | some t =>
      obtain ⟨be, hbe, bad⟩ := h
      rcases List.mem_cons.mp hbe with heq | hmemr
      · refine ⟨.typeAssertFailed, ?_⟩
        simp only [durLoop, ht]
        rw [itemsLoop_bad_item t e.items c acc (heq ▸ bad)]
      · cases hil : itemsLoop t c acc e.items with
        | error er => exact ⟨er, by simp [durLoop, ht, hil]⟩
        | ok pr =>
          obtain ⟨c', acc'⟩ := pr
          obtain ⟨err, herr⟩ := ih c' acc' ⟨be, hmemr, bad⟩
          exact ⟨err, by simp [durLoop, ht, hil, herr]⟩

/-- The item loop cannot fail when every status item carries a string
`fromString`. -/
theorem itemsLoop_all_str (t : Int) (items : List ChangeItem) :
    ∀ (c : Int) (acc : List (String × Int)),
    (∀ it ∈ items, it.field = "status" → it.fromString.isStr = true) →
    ∃ c' acc', itemsLoop t c acc items = .ok (c', acc') := by
  induction items with
  | nil => intro c acc _; exact ⟨c, acc, rfl⟩
  | cons it rest ih =>
    intro c acc h
    by_cases hf : it.field = "status"
    · have hs := h it (by simp) hf
      cases hfs : it.fromString with
      | str s =>
        obtain ⟨c', acc', hr⟩ :=
          ih t (mapAdd acc s (t - c)) (fun x hx hxf => h x (by simp [hx]) hxf)
        exact ⟨c', acc', by simp only [itemsLoop, hf, hfs, reduceIte]; exact hr⟩
      | num n => rw [hfs] at hs; simp [JsonValue.isStr] at hs
      | jbool b => rw [hfs] at hs; simp [JsonValue.isStr] at hs
      | null => rw [hfs] at hs; simp [JsonValue.isStr] at hs
    · obtain ⟨c', acc', hr⟩ := ih c acc (fun x hx hxf => h x (by simp [hx]) hxf)
      exact ⟨c', acc', by simp only [itemsLoop, hf, reduceIte]; exact hr⟩

/-- The entry loop never reports the type-assertion panic when every status
item of every entry carries a string `fromString`. -/
theorem durLoop_all_str_no_panic (entries : List ChangelogEntry) :
    ∀ (c : Int) (acc : List (String × Int)),
    (∀ e ∈ entries, ∀ it ∈ e.items, it.field = "status" → it.fromString.isStr = true) →
    durLoop c acc entries ≠ .error .typeAssertFailed := by
  induction entries with
  | nil => intro c acc _ h; simp [durLoop] at h
  | cons e rest ih =>
    intro c acc hgood
    cases ht : mustTimeParse e.created with
    | none => simp [durLoop, ht]
    | some t =>
      obtain ⟨c', acc', hr⟩ := itemsLoop_all_str t e.items c acc (hgood e (by simp))
      simp only [durLoop, ht, hr]
      exact ih c' acc' (fun x hx => hgood x (by simp [hx]))

/-- Claim C8: a changelog change item whose field is `status` but whose
previous-value is not a string makes the aggregation fail loudly (the
type-assertion panic, or an earlier fatal error), never silently coercing
or skipping the item; and when every status item's previous-value is a
string, the type-assertion failure branch is unreachable. -/
theorem c8_nonstring_fromstring_fails_loudly (issue : JiraIssue) :
    ((∃ e ∈ issue.histories, ∃ it ∈ e.items,
        it.field = "status" ∧ it.fromString.isStr = false) →
      ∃ err, statusDurationsOf issue = .error err) ∧
    ((∀ e ∈ issue.histories, ∀ it ∈ e.items,
        it.field = "status" → it.fromString.isStr = true) →
      statusDurationsOf issue ≠ .error .typeAssertFailed) := by
  constructor
  · intro h
    obtain ⟨e, he, bad⟩ := h
    unfold statusDurationsOf
    cases hp : mustTimeParse issue.createdF with
    | none => exact ⟨.timestampParse issue.createdF, rfl⟩
    | some t0 =>
      exact durLoop_bad_item issue.histories.reverse t0 []
        ⟨e, List.mem_reverse.mpr he, bad⟩
  · intro hgood
    unfold statusDurationsOf
    cases hp : mustTimeParse issue.createdF with
    | none => simp
    | some t0 =>
      exact durLoop_all_str_no_panic issue.histories.reverse t0 []
        (fun x hx => hgood x (List.mem_reverse.mp hx))

/-- Witness for C8: the aggregation fails on `exBadFromString` (whose single
status item carries a JSON `null`) and does not hit the type-assertion
branch on the all-string `exIssue2`. -/
theorem c8_witness :
    (∃ err, statusDurationsOf exBadFromString = .error err) ∧
    statusDurationsOf exIssue2 ≠ .error .typeAssertFailed :=
  ⟨(c8_nonstring_fromstring_fails_loudly exBadFromString).1 (by decide),
   (c8_nonstring_fromstring_fails_loudly exIssue2).2 (by decide)⟩

/-- Adding at one key leaves lookups of other keys unchanged. -/
theorem mapLookup_mapAdd_ne (m : List (String × Int)) (k : String) (v : Int)
    (k' : String) (h : k' ≠ k) :
    mapLookup (mapAdd m k v) k' = mapLookup m k' := by
  induction m with
  | nil => simp [mapAdd, mapLookup, Ne.symm h]
  | cons p rest ih =>
    obtain ⟨a, b⟩ := p
    by_cases ha : a = k
    · simp [mapAdd, mapLookup, ha, Ne.symm h]
    · simp [mapAdd, mapLookup, ha, ih]

/-- Adding at a fresh key appends it with exactly the added value. -/
theorem mapLookup_mapAdd_fresh (m : List (String × Int)) (k : String) (v : Int)
    (h : mapLookup m k = none) :
    mapLookup (mapAdd m k v) k = some v := by
  induction m with
  | nil => simp [mapAdd, mapLookup]
  | cons p rest ih =>
    obtain ⟨a, b⟩ := p
    by_cases ha : a = k
    · simp [mapLookup, ha] at h
    · simp only [mapLookup, ha, reduceIte] at h
      simp [mapAdd, mapLookup, ha, ih h]

/-- Zero-additions over keys not containing `k` leave `k`'s lookup
unchanged. -/
theorem zeroFold_lookup_not_mem (bs : List String) :
    ∀ (acc : List (String × Int)) (k : String), k ∉ bs →
    mapLookup (zeroFold acc bs) k = mapLookup acc k := by
  induction bs with
  | nil => intro acc k _; rfl
  | cons b rest ih =>
    intro acc k hk
    have h1 : k ≠ b := fun h => hk (by simp [h])
    have h2 : k ∉ rest := fun h => hk (by simp [h])
    show mapLookup (zeroFold (mapAdd acc b 0) rest) k = mapLookup acc k
    rw [ih (mapAdd acc b 0) k h2, mapLookup_mapAdd_ne acc b 0 k h1]

/-- Zero-additions over pairwise-distinct keys absent from the map record
each of those keys with duration 0. -/
theorem zeroFold_lookup_mem (bs : List String) :
    ∀ (acc : List (String × Int)), bs.Nodup →
    (∀ b ∈ bs, mapLookup acc b = none) →
    ∀ b ∈ bs, mapLookup (zeroFold acc bs) b = some 0 := by
  induction bs with
  | nil => intro acc _ _ b hb; cases hb
  | cons b0 rest ih =>
    intro acc hnd hfresh b hb
    have hnd' := List.nodup_cons.mp hnd
    rcases List.mem_cons.mp hb with heq | hmem
    · subst heq
      show mapLookup (zeroFold (mapAdd acc b 0) rest) b = some 0
      rw [zeroFold_lookup_not_mem rest (mapAdd acc b 0) b hnd'.1]
      exact mapLookup_mapAdd_fresh acc b 0 (hfresh b (by simp))
    · show mapLookup (zeroFold (mapAdd acc b0 0) rest) b = some 0
      refine ih (mapAdd acc b0 0) hnd'.2 ?_ b hmem
      intro x hx
      have hxb0 : x ≠ b0 := fun h => hnd'.1 (h ▸ hx)
      rw [mapLookup_mapAdd_ne acc b0 0 x hxb0]
      exact hfresh x (by simp [hx])

/-- Once the cursor equals the entry timestamp, each further status item of
the same entry adds exactly `t - t = 0` to its status. -/
theorem itemsLoop_same_time_zero (t : Int) (bs : List String) :
    ∀ (acc : List (String × Int)),
    itemsLoop t t acc (bs.map fun s => ⟨"status", .str s⟩) =
      .ok (t, zeroFold acc bs) := by
  induction bs with
  | nil => intro acc; rfl
  | cons b rest ih =>
    intro acc
    show itemsLoop t t (mapAdd acc b (t - t)) (rest.map fun s => ⟨"status", .str s⟩) =
      .ok (t, zeroFold (mapAdd acc b 0) rest)
    rw [sub_self]
    exact ih (mapAdd acc b 0)

/-- Claim C10: when a single changelog entry carries several status items,
the whole elapsed time since the previous cursor (here: creation) is
attributed to the first item's previous-value status, and every further
status item of that entry is attributed exactly zero, because the cursor
advances to the entry timestamp after the first item. -/
theorem c10_multi_status_items_one_entry (issue : JiraIssue) (s0 sc a : String)
    (bs : List String) (t0 tc : Int)
    (hcr : issue.createdF = s0)
    (hh : issue.histories =
      [⟨sc, ⟨"status", .str a⟩ :: bs.map (fun s => ⟨"status", .str s⟩)⟩])
    (hp0 : mustTimeParse s0 = some t0) (hpc : mustTimeParse sc = some tc)
    (hmem : a ∉ bs) (hnd : bs.Nodup) :
    ∃ m, statusDurationsOf issue = .ok m ∧
      mapLookup m a = some (tc - t0) ∧
      ∀ b ∈ bs, mapLookup m b = some 0 := by
  refine ⟨zeroFold [(a, tc - t0)] bs, ?_, ?_, ?_⟩
  · unfold statusDurationsOf
    rw [hcr, hp0, hh]
    simp only [List.reverse_cons, List.reverse_nil, List.nil_append, durLoop, hpc]
    have hstep : itemsLoop tc t0 []
        (⟨"status", .str a⟩ :: bs.map (fun s => ⟨"status", .str s⟩)) =
        .ok (tc, zeroFold [(a, tc - t0)] bs) := by
      show itemsLoop tc tc (mapAdd [] a (tc - t0)) (bs.map fun s => ⟨"status", .str s⟩) =
        .ok (tc, zeroFold [(a, tc - t0)] bs)
      exact itemsLoop_same_time_zero tc bs (mapAdd [] a (tc - t0))
    rw [hstep]
  · rw [zeroFold_lookup_not_mem bs [(a, tc - t0)] a hmem]
    simp [mapLookup]
  · intro b hb
    refine zeroFold_lookup_mem bs [(a, tc - t0)] hnd ?_ b hb
    intro x hx
    have hxa : x ≠ a := fun h => hmem (h ▸ hx)
    simp [mapLookup, Ne.symm hxa]

/-- Witness for C10: the issue `c10Issue`, whose single entry at `ts1`
leaves `A`, then `B`, then `C` at once; `A` gets the full hour since
creation and `B`, `C` get zero. -/
theorem c10_witness :
    ∃ m, statusDurationsOf c10Issue = .ok m ∧
      mapLookup m "A" = some 3600000000000 ∧
      ∀ b ∈ ["B", "C"], mapLookup m b = some 0 :=
  c10_multi_status_items_one_entry c10Issue ts0 ts1 "A" ["B", "C"]
    1704067200000000000 1704070800000000000 rfl rfl rfl rfl (by decide) (by decide)
